import Mathlib

/-!
Verification of the RCM C front-end (`src/RCM-cli/Rcm-cli.c`).

The program is a single `main` function that forwards the OS argument
vector to an external library exposing two operations, `rcm_run` and
`rcm_version` (declared in `src/RCM-cli/Rcm-cli.h`).  We embed `main`
shallowly as a pure function over an abstract `Library`, recording every
observable action (the call to `rcm_version`, each line written to
standard output, and each call to `rcm_run`) in an event trace, together
with the integer returned from `main` (the process exit status).
-/

namespace RcmCli

/-- One observable action performed by `main`: querying the library
version, writing one line to standard output, or invoking the library's
`rcm_run` with an argument count, an argument vector, and the integer
result it returned. -/
inductive Event where
  | callVersion (result : Option String)
  | writeStdout (line : String)
  | callRun (argc : Int) (argv : List String) (result : Int)
  deriving DecidableEq, Repr

/-- The opaque library boundary of `src/RCM-cli/Rcm-cli.h`:
`rcm_version` returns a static string or null (`Option String`), and
`rcm_run` maps an argument count and argument vector to an integer
status. -/
structure Library where
  rcm_version : Option String
  rcm_run : Int → List String → Int

/-- Shallow embedding of `main` in `src/RCM-cli/Rcm-cli.c`.  C strings
become `String`, the possibly-null version pointer becomes
`Option String`, the C `int` argument count becomes `Int`, and the
argument vector becomes `List String`.  The result is the ordered trace
of observable actions paired with the value returned from `main`.  The
ternary `ver ? ver : "unknown"` is the `match` on the option, and the
`fprintf` format `"RCM CLI (C front-end) - %s\n"` yields one output
line. -/
def main (lib : Library) (argc : Int) (argv : List String) : List Event × Int :=
  if argc ≤ 1 then
    let ver := lib.rcm_version
    let line := "RCM CLI (C front-end) - " ++ (match ver with | some s => s | none => "unknown")
    let helpv := ["rcm", "--help"]
    let status := lib.rcm_run 2 helpv
    ([Event.callVersion ver, Event.writeStdout line, Event.callRun 2 helpv status], status)
  else
    ([Event.callRun argc argv (lib.rcm_run argc argv)], lib.rcm_run argc argv)

/-- The lines written to standard output along a trace, in order. -/
def stdoutLines (t : List Event) : List String :=
  t.filterMap fun e =>
    match e with
    | Event.writeStdout s => some s
    | _ => none

/-- The calls made to the library's `rcm_run` along a trace, in order,
each recorded as the argument count paired with the argument vector. -/
def runCalls (t : List Event) : List (Int × List String) :=
  t.filterMap fun e =>
    match e with
    | Event.callRun c a _ => some (c, a)
    | _ => none

end RcmCli

open RcmCli

/-- C1: for every invocation with argument count > 1 and any argument
sequence, `main` invokes the library's `rcm_run` exactly once, with the
original count and the original sequence, unmodified. -/
theorem normal_invocation_forwards_verbatim (lib : Library) (argc : Int)
    (argv : List String) (h : 1 < argc) :
    runCalls (main lib argc argv).1 = [(argc, argv)] := by
  simp [main, runCalls, if_neg (not_le.mpr h)]

/-- Witness for C1 at a concrete invocation with three arguments. -/
theorem normal_invocation_forwards_verbatim_witness :
    runCalls (main ⟨some "1.2.0", fun _ _ => 7⟩ 3 ["rcm", "status", "-v"]).1 =
      [(3, ["rcm", "status", "-v"])] :=
  normal_invocation_forwards_verbatim ⟨some "1.2.0", fun _ _ => 7⟩ 3
    ["rcm", "status", "-v"] (by decide)

/-- C2: for every invocation with argument count ≤ 1 (including 0),
`main` invokes the library's `rcm_run` exactly once, with count 2 and
the two-token vector consisting of the program-name placeholder and the
literal flag `--help`. -/
theorem bare_invocation_forwards_help (lib : Library) (argc : Int)
    (argv : List String) (h : argc ≤ 1) :
    runCalls (main lib argc argv).1 = [(2, ["rcm", "--help"])] := by
  simp [main, runCalls, if_pos h]

/-- Witness for C2 at argument count 0 with an empty vector. -/
theorem bare_invocation_forwards_help_witness :
    runCalls (main ⟨none, fun _ _ => 0⟩ 0 []).1 = [(2, ["rcm", "--help"])] :=
  bare_invocation_forwards_help ⟨none, fun _ _ => 0⟩ 0 [] (by decide)

/-- C3: whenever the trace of `main` records a call to `rcm_run` that
returned the integer `r`, the value returned from `main` — the process
exit status — equals `r` exactly, in both branches. -/
theorem status_pass_through (lib : Library) (argc : Int) (argv : List String)
    (c : Int) (a : List String) (r : Int)
    (h : Event.callRun c a r ∈ (main lib argc argv).1) :
    (main lib argc argv).2 = r := by
  by_cases hc : argc ≤ 1
  · simp_all [main, if_pos hc]
  · simp_all [main, if_neg hc]

/-- Witness for C3: a library whose `rcm_run` returns 42 yields exit
status 42. -/
theorem status_pass_through_witness :
    (main ⟨some "1.2.0", fun _ _ => 42⟩ 5 ["rcm", "a", "b", "c", "d"]).2 = 42 :=
  status_pass_through ⟨some "1.2.0", fun _ _ => 42⟩ 5 ["rcm", "a", "b", "c", "d"]
    5 ["rcm", "a", "b", "c", "d"] 42 (by decide)

/-- C5: on every invocation, `main` calls the library's `rcm_run`
exactly once — never zero times and never twice. -/
theorem run_called_exactly_once (lib : Library) (argc : Int) (argv : List String) :
    (runCalls (main lib argc argv).1).length = 1 := by
  unfold main
  split <;> simp [runCalls]

/-- C6: for every invocation with argument count > 1, `main` writes
nothing to standard output and its trace consists of the single call to
`rcm_run` — no other observable action of its own. -/
theorem normal_invocation_silent (lib : Library) (argc : Int)
    (argv : List String) (h : 1 < argc) :
    stdoutLines (main lib argc argv).1 = [] ∧
      (main lib argc argv).1 = [Event.callRun argc argv (lib.rcm_run argc argv)] := by
  constructor <;> simp [main, stdoutLines, if_neg (not_le.mpr h)]

/-- Witness for C6 at a concrete invocation with two arguments. -/
theorem normal_invocation_silent_witness :
    stdoutLines (main ⟨some "1.2.0", fun _ _ => 0⟩ 2 ["rcm", "status"]).1 = [] ∧
      (main ⟨some "1.2.0", fun _ _ => 0⟩ 2 ["rcm", "status"]).1 =
        [Event.callRun 2 ["rcm", "status"] 0] :=
  normal_invocation_silent ⟨some "1.2.0", fun _ _ => 0⟩ 2 ["rcm", "status"] (by decide)

/-- C4: for every invocation with argument count ≤ 1, exactly one line
is written to standard output, in the program-label/separator/version
format; when the library's version is absent (null) the literal token
`unknown` is substituted, so the line is always total — the embedding is
a total function and the substitution is never skipped. -/
theorem bare_invocation_prints_banner (lib : Library) (argc : Int)
    (argv : List String) (h : argc ≤ 1) :
    stdoutLines (main lib argc argv).1 =
      ["RCM CLI (C front-end) - " ++ lib.rcm_version.getD "unknown"] ∧
      (lib.rcm_version = none →
        stdoutLines (main lib argc argv).1 = ["RCM CLI (C front-end) - unknown"]) := by
  constructor
  · simp [main, stdoutLines, if_pos h, Option.getD]
    cases lib.rcm_version <;> simp
  · intro hv
    simp [main, stdoutLines, if_pos h, hv]

/-- Witness for C4 with the version absent at argument count 1. -/
theorem bare_invocation_prints_banner_witness :
    stdoutLines (main ⟨none, fun _ _ => 0⟩ 1 ["rcm"]).1 =
      ["RCM CLI (C front-end) - " ++ (none : Option String).getD "unknown"] ∧
      ((none : Option String) = none →
        stdoutLines (main ⟨none, fun _ _ => 0⟩ 1 ["rcm"]).1 =
          ["RCM CLI (C front-end) - unknown"]) :=
  bare_invocation_prints_banner ⟨none, fun _ _ => 0⟩ 1 ["rcm"] (by decide)

/-- C7: in every bare invocation (count ≤ 1) the trace is exactly: the
version request first, then the banner line, then the call to `rcm_run`
on the synthetic vector as the final action; and the value returned from
`main` is exactly that call's result, with nothing after it. -/
theorem bare_invocation_event_order (lib : Library) (argc : Int)
    (argv : List String) (h : argc ≤ 1) :
    (main lib argc argv).1 =
      [Event.callVersion lib.rcm_version,
       Event.writeStdout ("RCM CLI (C front-end) - " ++ lib.rcm_version.getD "unknown"),
       Event.callRun 2 ["rcm", "--help"] (lib.rcm_run 2 ["rcm", "--help"])] ∧
      (main lib argc argv).2 = lib.rcm_run 2 ["rcm", "--help"] := by
  constructor
  · simp [main, if_pos h, Option.getD]
    cases lib.rcm_version <;> simp
  · simp [main, if_pos h]

/-- Witness for C7 at a concrete bare invocation. -/
theorem bare_invocation_event_order_witness :
    (main ⟨some "1.2.0", fun _ _ => 3⟩ 1 ["rcm"]).1 =
      [Event.callVersion (some "1.2.0"),
       Event.writeStdout ("RCM CLI (C front-end) - " ++ (some "1.2.0").getD "unknown"),
       Event.callRun 2 ["rcm", "--help"] 3] ∧
      (main ⟨some "1.2.0", fun _ _ => 3⟩ 1 ["rcm"]).2 = 3 :=
  bare_invocation_event_order ⟨some "1.2.0", fun _ _ => 3⟩ 1 ["rcm"] (by decide)

/-- C8: in the bare branch (count ≤ 1) the result of `main` does not
depend on the delivered argument vector at all — any two vectors,
including the empty one at count 0, give the same trace and status, so
no element of the vector is ever read. -/
theorem bare_invocation_ignores_argv (lib : Library) (argc : Int)
    (argv argv' : List String) (h : argc ≤ 1) :
    main lib argc argv = main lib argc argv' := by
  simp [main, if_pos h]

/-- Witness for C8: at count 0 the empty vector and a nonempty one
agree. -/
theorem bare_invocation_ignores_argv_witness :
    main ⟨some "1.2.0", fun _ _ => 0⟩ 0 [] =
      main ⟨some "1.2.0", fun _ _ => 0⟩ 0 ["garbage"] :=
  bare_invocation_ignores_argv ⟨some "1.2.0", fun _ _ => 0⟩ 0 [] ["garbage"] (by decide)

/-- C9: the constant tokens are fixed — in the bare branch the synthetic
vector's program-name placeholder is exactly the string `rcm`, and the
banner line is exactly the label `RCM CLI (C front-end)` followed by the
separator and the version text. -/
theorem fixed_constant_tokens (lib : Library) (argc : Int)
    (argv : List String) (h : argc ≤ 1) :
    runCalls (main lib argc argv).1 = [(2, "rcm" :: ["--help"])] ∧
      stdoutLines (main lib argc argv).1 =
        ["RCM CLI (C front-end)" ++ " - " ++ lib.rcm_version.getD "unknown"] := by
  constructor
  · simp [main, runCalls, if_pos h]
  · cases hv : lib.rcm_version <;>
      simp [main, stdoutLines, if_pos h, hv, Option.getD]

/-- Witness for C9 at a concrete bare invocation. -/
theorem fixed_constant_tokens_witness :
    runCalls (main ⟨some "1.2.0", fun _ _ => 0⟩ 1 ["rcm"]).1 = [(2, "rcm" :: ["--help"])] ∧
      stdoutLines (main ⟨some "1.2.0", fun _ _ => 0⟩ 1 ["rcm"]).1 =
        ["RCM CLI (C front-end)" ++ " - " ++ (some "1.2.0").getD "unknown"] :=
  fixed_constant_tokens ⟨some "1.2.0", fun _ _ => 0⟩ 1 ["rcm"] (by decide)

/-- C10: `main` is deterministic — two runs with the same argument count
and sequence against libraries that return the same version and the same
run results produce identical traces (hence identical standard output)
and identical exit status. -/
theorem main_deterministic (lib lib' : Library) (argc : Int) (argv : List String)
    (hv : lib.rcm_version = lib'.rcm_version)
    (hr : ∀ c a, lib.rcm_run c a = lib'.rcm_run c a) :
    main lib argc argv = main lib' argc argv := by
  by_cases hc : argc ≤ 1 <;> simp [main, hc, hv, hr]

/-- Witness for C10: two syntactically different libraries with equal
observable behavior give equal results. -/
theorem main_deterministic_witness :
    main ⟨some "1.2.0", fun _ _ => 5⟩ 1 ["rcm"] =
      main ⟨some "1.2.0", fun _ _ => 2 + 3⟩ 1 ["rcm"] :=
  main_deterministic ⟨some "1.2.0", fun _ _ => 5⟩
    ⟨some "1.2.0", fun _ _ => 2 + 3⟩ 1 ["rcm"] rfl
    (fun _ _ => by norm_num)
